import Mathlib

-- Verification development for the nitrogen-loss dashboard
-- (src/Dashboard_micheal.py).  The tabular data handled by the dashboard is
-- shallowly embedded: a pandas DataFrame column becomes a structure field,
-- numeric cells become exact rationals, and the pandas operations used by the
-- script (column arithmetic, groupby/agg, rounding, string formatting) are
-- translated into executable Lean functions below.

-- ## Python string primitives used by the script

-- Byte-wise lexicographic order on strings (Python string comparison and the
-- sort order pandas groupby applies to string group keys; coincides with
-- code-point order for the ASCII labels in the data).
def charListLe : List Char → List Char → Bool
  | [], _ => true
  | _ :: _, [] => false
  | a :: as, b :: bs =>
    if a.toNat < b.toNat then true
    else if b.toNat < a.toNat then false
    else charListLe as bs

def strLe (a b : String) : Bool :=
  charListLe a.data b.data

-- Model of Python str.startswith.
def pyStartswith (s pre : String) : Bool :=
  pre.data.isPrefixOf s.data

-- Model of Python str.replace: replaces every non-overlapping occurrence of
-- the pattern, scanning left to right.  The fuel argument (instantiated with
-- the length of the subject) only serves structural termination; one unit is
-- spent per character consumed, which suffices for the non-empty patterns the
-- dashboard uses ("selfloop").
def pyReplaceChars (pat repl : List Char) : Nat → List Char → List Char
  | 0, s => s
  | _ + 1, [] => []
  | fuel + 1, c :: rest =>
    if pat.isPrefixOf (c :: rest) then
      repl ++ pyReplaceChars pat repl fuel (List.drop pat.length (c :: rest))
    else
      c :: pyReplaceChars pat repl fuel rest

def pyReplace (s pat repl : String) : String :=
  ⟨pyReplaceChars pat.data repl.data s.data.length s.data⟩

-- Model of Python str.title for the ASCII labels in the data: a letter that
-- follows a non-letter is uppercased, a letter that follows a letter is
-- lowercased, non-letters are kept.
def titleChars : Bool → List Char → List Char
  | _, [] => []
  | prevAlpha, c :: cs =>
    (if c.isAlpha then (if prevAlpha then c.toLower else c.toUpper) else c) ::
      titleChars c.isAlpha cs

def pyTitle (s : String) : String :=
  ⟨titleChars false s.data⟩

-- Model of the pandas .str.replace of a single character by another
-- (the script only replaces the underscore by a space).
def underscoreToSpace (s : String) : String :=
  ⟨s.data.map (fun ch => if ch = '_' then ' ' else ch)⟩

-- First non-null value of a column inside a group: the semantics of the
-- pandas aggregation "first" used for the county name.
def firstNonNull : List (Option String) → Option String
  | [] => none
  | some s :: _ => some s
  | none :: rest => firstNonNull rest

-- ## Exact model of the numeric formatting used for display

-- Round to the nearest integer, ties to even: the rounding used by Python's
-- built-in round and by pandas/numpy Series.round.
def roundHalfEven (q : ℚ) : ℤ :=
  if q - ⌊q⌋ < 1 / 2 then ⌊q⌋
  else if 1 / 2 < q - ⌊q⌋ then ⌊q⌋ + 1
  else if ⌊q⌋ % 2 = 0 then ⌊q⌋ else ⌊q⌋ + 1

-- round(x, 2): round to 2 decimal places.
def round2 (q : ℚ) : ℚ :=
  (roundHalfEven (100 * q) : ℚ) / 100

-- The display convention of the dashboard: raw mass divided by 10^6
-- ("millions of mass units", shown as K Tons) rounded to 2 decimals.
def displayMillions (raw : ℚ) : ℚ :=
  round2 (raw / 10 ^ 6)

-- np.log1p, the transform applied to every mapped quantity.
noncomputable def log1p (v : ℝ) : ℝ :=
  Real.log (1 + v)

-- ## Data model: the five source tables of one scenario year

-- Rows of crop_processing_nitrogen.csv after the selfloop rename and with the
-- total_nitrogen_loss column appended by load_data.  The three trade-flow
-- fields stand for the columns import_crop_processing_nitrogen,
-- export_crop_processing_nitrogen and within_county_crop_processing_nitrogen.
structure CropRow where
  fips : Nat
  county : Option String
  commodity : String
  nitrogen_loss1 : ℚ
  nitrogen_loss2 : ℚ
  crop_flow_in : ℚ
  crop_flow_out : ℚ
  crop_flow_within : ℚ
  total_nitrogen_loss : ℚ
deriving DecidableEq

-- Rows of animal_stage_nitrogen.csv after the selfloop rename and with the
-- total_nitrogen_loss column appended by load_data.  animal_flow_* stand for
-- the columns import/export/within_county_animal_nitrogen (live animal
-- stage) and meat_flow_* for import/export/within_county_meat_nitrogen
-- (animal product stage).
structure AnimalRow where
  fips : Nat
  county : Option String
  commodity : String
  nitrogen_loss3 : ℚ
  nitrogen_loss4 : ℚ
  nitrogen_loss5 : ℚ
  nitrogen_loss6 : ℚ
  nitrogen_loss7 : ℚ
  animal_flow_in : ℚ
  animal_flow_out : ℚ
  animal_flow_within : ℚ
  meat_flow_in : ℚ
  meat_flow_out : ℚ
  meat_flow_within : ℚ
  total_nitrogen_loss : ℚ
deriving DecidableEq

-- Rows of the per-county total table built inside load_data (FIPS, county,
-- total_nitrogen_loss).
structure TotalRow where
  fips : Nat
  county : Option String
  total_nitrogen_loss : ℚ
deriving DecidableEq

-- Rows of harvested_area_by_commodity.csv / inventory_by_commodity.csv:
-- a commodity label and its single numeric total column.
structure ProductionRow where
  commodity : String
  value : ℚ
deriving DecidableEq

-- nitrogen_losses_summary.csv is loaded but never consulted afterwards, so
-- its rows are modelled as bare lists of numeric cells.
abbrev NitrogenTable := List (List ℚ)

-- ## The column rename performed at load time (lines 46-55 of the script)

-- A raw CSV table as read from disk: a header row naming the columns and the
-- data cells; the rename touches only the header.
structure RawTable where
  headers : List String
  cells : List (List ℚ)
deriving DecidableEq

-- One column name as rewritten by load_data:
-- col.replace("selfloop", "within_county") if col.startswith("selfloop")
-- else col.
def renameColumn (col : String) : String :=
  if pyStartswith col "selfloop" then pyReplace col "selfloop" "within_county"
  else col

-- The whole-table rename applied to crop_processing_nitrogen_df and
-- animal_stage_nitrogen_df: df.columns = [... for col in df.columns].
def renameWithinCounty (t : RawTable) : RawTable :=
  ⟨t.headers.map renameColumn, t.cells⟩

-- ## load_data (lines 37-74 of the script)

-- Projections of the two loss tables to [FIPS, county, total_nitrogen_loss],
-- concatenated crop rows first, exactly as in the pd.concat call.
def cropTotalRows (crop_df : List CropRow) : List TotalRow :=
  crop_df.map (fun r => ⟨r.fips, r.county, r.total_nitrogen_loss⟩)

def animalTotalRows (animal_df : List AnimalRow) : List TotalRow :=
  animal_df.map (fun r => ⟨r.fips, r.county, r.total_nitrogen_loss⟩)

def concatTotalRows (crop_df : List CropRow) (animal_df : List AnimalRow) :
    List TotalRow :=
  cropTotalRows crop_df ++ animalTotalRows animal_df

-- The distinct FIPS keys in the ascending order pandas groupby produces.
def fipsKeys (rows : List TotalRow) : List Nat :=
  ((rows.map (fun r => r.fips)).dedup).insertionSort (· ≤ ·)

-- groupby('FIPS').agg({'total_nitrogen_loss': 'sum', 'county': 'first'}):
-- one output row per FIPS key, summing the losses of the group and keeping
-- its first non-null county name, groups listed in key order.
def groupByFips (rows : List TotalRow) : List TotalRow :=
  (fipsKeys rows).map (fun f =>
    ⟨f,
     firstNonNull ((rows.filter (fun r => r.fips == f)).map (fun r => r.county)),
     ((rows.filter (fun r => r.fips == f)).map
       (fun r => r.total_nitrogen_loss)).sum⟩)

-- The loaded bundle returned by load_data.
structure LoadedData where
  nitrogen_df : NitrogenTable
  area_df : List ProductionRow
  inventory_df : List ProductionRow
  crop_df : List CropRow
  animal_df : List AnimalRow
  total_nitrogen_df : List TotalRow

-- The two column assignments of lines 57-63: total_nitrogen_loss is the sum
-- of the crop losses 1-2 resp. the animal losses 3-7.
def cropWithTotals (crop0 : List CropRow) : List CropRow :=
  crop0.map (fun r =>
    { r with total_nitrogen_loss := r.nitrogen_loss1 + r.nitrogen_loss2 })

def animalWithTotals (animal0 : List AnimalRow) : List AnimalRow :=
  animal0.map (fun r =>
    { r with total_nitrogen_loss :=
        r.nitrogen_loss3 + r.nitrogen_loss4 + r.nitrogen_loss5 +
          r.nitrogen_loss6 + r.nitrogen_loss7 })

-- load_data: append the two total_nitrogen_loss columns and build the
-- per-county total table from the concatenation of the two projections.
def load_data (nitrogen0 : NitrogenTable) (area0 inventory0 : List ProductionRow)
    (crop0 : List CropRow) (animal0 : List AnimalRow) : LoadedData :=
  ⟨nitrogen0, area0, inventory0, cropWithTotals crop0, animalWithTotals animal0,
    groupByFips (concatTotalRows (cropWithTotals crop0) (animalWithTotals animal0))⟩

-- ## Display artifacts assembled by update_dashboard (lines 155-402)

-- Sum of a numeric column over a table.
def sumBy (rows : List α) (f : α → ℚ) : ℚ :=
  (rows.map f).sum

-- One choropleth artifact: the per-county color value is the log1p of the
-- plotted column, the hover data shows the raw column value and the county
-- name.
structure MapArtifact where
  label : String
  locations : List Nat
  colorValues : List ℝ
  hoverValues : List ℚ
  hoverNames : List (Option String)

noncomputable def mkMap (label : String) (rows : List α) (locOf : α → Nat)
    (countyOf : α → Option String) (colOf : α → ℚ) : MapArtifact :=
  ⟨label, rows.map locOf, rows.map (fun r => log1p ((colOf r : ℚ) : ℝ)),
    rows.map colOf, rows.map countyOf⟩

-- The nitrogen_loss_labels dict of the script, in its iteration order.
def nitrogen_loss_labels : List (String × String) :=
  [("nitrogen_loss1", "N input not taken by crop"),
   ("nitrogen_loss2", "Crop processing N loss"),
   ("nitrogen_loss3", "Feed waste & manure loss"),
   ("nitrogen_loss4", "Slaughtering/milking/laying N loss"),
   ("nitrogen_loss5", "Food processing N loss"),
   ("nitrogen_loss6", "Food N waste"),
   ("nitrogen_loss7", "Human N waste")]

-- The seven per-stage maps (crop_df for the first two loss columns, animal_df
-- for the remaining five) followed by the total-loss map.
noncomputable def nitrogenLossMaps (crop_df : List CropRow)
    (animal_df : List AnimalRow) (total_df : List TotalRow) : List MapArtifact :=
  [mkMap "N input not taken by crop" crop_df (fun r => r.fips)
     (fun r => r.county) (fun r => r.nitrogen_loss1),
   mkMap "Crop processing N loss" crop_df (fun r => r.fips)
     (fun r => r.county) (fun r => r.nitrogen_loss2),
   mkMap "Feed waste & manure loss" animal_df (fun r => r.fips)
     (fun r => r.county) (fun r => r.nitrogen_loss3),
   mkMap "Slaughtering/milking/laying N loss" animal_df (fun r => r.fips)
     (fun r => r.county) (fun r => r.nitrogen_loss4),
   mkMap "Food processing N loss" animal_df (fun r => r.fips)
     (fun r => r.county) (fun r => r.nitrogen_loss5),
   mkMap "Food N waste" animal_df (fun r => r.fips)
     (fun r => r.county) (fun r => r.nitrogen_loss6),
   mkMap "Human N waste" animal_df (fun r => r.fips)
     (fun r => r.county) (fun r => r.nitrogen_loss7),
   mkMap "Total Nitrogen Loss" total_df (fun r => r.fips)
     (fun r => r.county) (fun r => r.total_nitrogen_loss)]

-- One row of the "Nitrogen Loss Table" (Section 5 of the script).
structure NLRow where
  stage_id : String
  loss_type : String
  total_ktons : ℚ
deriving DecidableEq

-- The eight rows of the nitrogen-loss summary table: each per-stage value is
-- the column sum divided by 10^6 rounded to 2 decimals, and the final row is
-- round(crop_sum/10^6 + animal_sum/10^6, 2) computed from the unrounded
-- column sums (lines 219-232).
def nitrogenLossTableRows (crop_df : List CropRow) (animal_df : List AnimalRow) :
    List NLRow :=
  [⟨"Nitrogen Loss Stage 1", "N input not taken by crop",
     displayMillions (sumBy crop_df (fun r => r.nitrogen_loss1))⟩,
   ⟨"Nitrogen Loss Stage 2", "Crop processing N loss",
     displayMillions (sumBy crop_df (fun r => r.nitrogen_loss2))⟩,
   ⟨"Nitrogen Loss Stage 3", "Feed waste & manure loss",
     displayMillions (sumBy animal_df (fun r => r.nitrogen_loss3))⟩,
   ⟨"Nitrogen Loss Stage 4", "Slaughtering/milking/laying N loss",
     displayMillions (sumBy animal_df (fun r => r.nitrogen_loss4))⟩,
   ⟨"Nitrogen Loss Stage 5", "Food processing N loss",
     displayMillions (sumBy animal_df (fun r => r.nitrogen_loss5))⟩,
   ⟨"Nitrogen Loss Stage 6", "Food N waste",
     displayMillions (sumBy animal_df (fun r => r.nitrogen_loss6))⟩,
   ⟨"Nitrogen Loss Stage 7", "Human N waste",
     displayMillions (sumBy animal_df (fun r => r.nitrogen_loss7))⟩,
   ⟨"Total Nitrogen Loss", "Total Nitrogen Loss",
     round2 ((sumBy crop_df (fun r => r.nitrogen_loss1) +
         sumBy crop_df (fun r => r.nitrogen_loss2)) / 10 ^ 6 +
       (sumBy animal_df (fun r => r.nitrogen_loss3) +
         sumBy animal_df (fun r => r.nitrogen_loss4) +
         sumBy animal_df (fun r => r.nitrogen_loss5) +
         sumBy animal_df (fun r => r.nitrogen_loss6) +
         sumBy animal_df (fun r => r.nitrogen_loss7)) / 10 ^ 6)⟩]

-- One row of a per-stage trade table after formatting: the columns
-- Commodity / Import (K Tons) / Export (K Tons) / Within County (K Tons).
structure TradeRow where
  commodity : String
  flow_in_ktons : ℚ
  flow_out_ktons : ℚ
  flow_within_ktons : ℚ
deriving DecidableEq

-- The commodity group keys in the sorted order pandas groupby produces.
def commodityKeys (labels : List String) : List String :=
  (labels.dedup).insertionSort (fun a b => strLe a b = true)

-- A trade-table input row: the raw commodity label with the three directional
-- nitrogen quantities of one stage.
abbrev FlowRow := String × ℚ × ℚ × ℚ

-- One output row of the stage table for a given commodity key: group sums
-- divided by 10^6 and rounded to 2 decimals, the label title-cased and then
-- de-underscored (lines 295-304).
def tradeRowFor (rows : List FlowRow) (c : String) : TradeRow :=
  ⟨underscoreToSpace (pyTitle c),
   round2 (((rows.filter (fun r => r.1 == c)).map (fun r => r.2.1)).sum / 10 ^ 6),
   round2 (((rows.filter (fun r => r.1 == c)).map (fun r => r.2.2.1)).sum / 10 ^ 6),
   round2 (((rows.filter (fun r => r.1 == c)).map (fun r => r.2.2.2)).sum / 10 ^ 6)⟩

def tradeTable (rows : List FlowRow) : List TradeRow :=
  (commodityKeys (rows.map (fun r => r.1))).map (tradeRowFor rows)

-- One stage block of Section 6: the heading, the three direction map tabs and
-- the stage summary table, all placed inside the import-export-tables
-- container of the page.
structure StageSection where
  heading : String
  mapTabs : List MapArtifact
  table : List TradeRow

noncomputable def stageSection (stage : String) (rows : List α)
    (locOf : α → Nat) (countyOf : α → Option String) (commodityOf : α → String)
    (n0 n1 n2 : String) (c0 c1 c2 : α → ℚ) : StageSection :=
  ⟨stage,
   [mkMap (pyTitle (underscoreToSpace n0)) rows locOf countyOf c0,
    mkMap (pyTitle (underscoreToSpace n1)) rows locOf countyOf c1,
    mkMap (pyTitle (underscoreToSpace n2)) rows locOf countyOf c2],
   tradeTable (rows.map (fun r => (commodityOf r, c0 r, c1 r, c2 r)))⟩

-- The three stage blocks, in page order (lines 256-323).
noncomputable def tradeStageSections (crop_df : List CropRow)
    (animal_df : List AnimalRow) : List StageSection :=
  [stageSection "Crop Stage" crop_df (fun r => r.fips) (fun r => r.county)
     (fun r => r.commodity)
     "import_crop_processing_nitrogen" "export_crop_processing_nitrogen"
     "within_county_crop_processing_nitrogen"
     (fun r => r.crop_flow_in) (fun r => r.crop_flow_out)
     (fun r => r.crop_flow_within),
   stageSection "Live Animal Stage" animal_df (fun r => r.fips)
     (fun r => r.county) (fun r => r.commodity)
     "import_animal_nitrogen" "export_animal_nitrogen"
     "within_county_animal_nitrogen"
     (fun r => r.animal_flow_in) (fun r => r.animal_flow_out)
     (fun r => r.animal_flow_within),
   stageSection "Animal Product Stage" animal_df (fun r => r.fips)
     (fun r => r.county) (fun r => r.commodity)
     "import_meat_nitrogen" "export_meat_nitrogen"
     "within_county_meat_nitrogen"
     (fun r => r.meat_flow_in) (fun r => r.meat_flow_out)
     (fun r => r.meat_flow_within)]

-- Section 7: a pie chart plus a table for inventory and for harvested area.
structure PieArtifact where
  names : List String
  values : List ℚ
deriving DecidableEq

structure ProdSection where
  chart : PieArtifact
  table : List ProductionRow
deriving DecidableEq

-- The commodity relabelling applied before charting (lines 337-340)
-- and the df.round(2) applied before the tables (lines 364-365).
def formatProduction (df : List ProductionRow) : List ProductionRow :=
  df.map (fun r => { r with commodity := underscoreToSpace (pyTitle r.commodity) })

def roundProduction (df : List ProductionRow) : List ProductionRow :=
  df.map (fun r => { r with value := round2 r.value })

def pieOf (df : List ProductionRow) : PieArtifact :=
  ⟨df.map (fun r => r.commodity), df.map (fun r => r.value)⟩

def prodSection (df : List ProductionRow) : ProdSection :=
  ⟨pieOf (formatProduction df), roundProduction (formatProduction df)⟩

-- The five callback outputs of update_dashboard_wrapper, keyed by container:
-- chloropleth-maps, nitrogen-loss-table, import-export-tables,
-- import-export-maps and inventory-harvest-section.  The script returns the
-- literal empty list for the import-export-maps slot (line 402); the nine
-- stage maps travel inside the import-export-tables content instead.
structure Artifacts where
  chloropleth_maps : List MapArtifact
  nitrogen_loss_table : List NLRow
  trade_tables_slot : List StageSection
  trade_maps_slot : List StageSection
  inventory_harvest : ProdSection × ProdSection

noncomputable def assemble (d : LoadedData) : Artifacts :=
  ⟨nitrogenLossMaps d.crop_df d.animal_df d.total_nitrogen_df,
   nitrogenLossTableRows d.crop_df d.animal_df,
   tradeStageSections d.crop_df d.animal_df,
   [],
   (prodSection d.inventory_df, prodSection d.area_df)⟩

-- update_dashboard for a year whose five tables parsed successfully.
noncomputable def update_dashboard (nitrogen0 : NitrogenTable)
    (area0 inventory0 : List ProductionRow) (crop0 : List CropRow)
    (animal0 : List AnimalRow) : Artifacts :=
  assemble (load_data nitrogen0 area0 inventory0 crop0 animal0)

-- ## The failure path: missing or unreadable source files

-- The five files of one scenario directory; none stands for a file that is
-- missing or cannot be parsed, in which case pd.read_csv raises.
structure SourceFiles where
  nitrogen_csv : Option NitrogenTable
  area_csv : Option (List ProductionRow)
  inventory_csv : Option (List ProductionRow)
  crop_csv : Option (List CropRow)
  animal_csv : Option (List AnimalRow)

inductive LoadError where
  | dataUnavailable
deriving DecidableEq

-- load_data with the file reads made explicit: the first unreadable file
-- aborts the whole load, exactly as the uncaught pandas exception does.
def load_data_result (files : SourceFiles) : Except LoadError LoadedData :=
  match files.nitrogen_csv, files.area_csv, files.inventory_csv,
      files.crop_csv, files.animal_csv with
  | some n, some a, some i, some c, some an =>
    Except.ok (load_data n a i c an)
  | _, _, _, _, _ => Except.error LoadError.dataUnavailable

-- The callback body: load, then assemble; a load failure propagates and no
-- display artifact of any section is produced.
noncomputable def update_dashboard_result (files : SourceFiles) :
    Except LoadError Artifacts :=
  (load_data_result files).map assemble

-- Two invocations of the callback for the same selected year against the
-- same on-disk tables.
noncomputable def runTwice (files : SourceFiles) :
    Except LoadError Artifacts × Except LoadError Artifacts :=
  (update_dashboard_result files, update_dashboard_result files)

-- The registered scenario identifiers (the data_paths dict keys).
def data_paths_keys : List String :=
  ["2017", "2030", "2050"]

-- ## Claim theorems

/-- C7: the transform applied to every displayed map quantity is log1p.  For
every non-negative input v the transformed value log1p v is non-negative, a
zero quantity transforms to exactly zero, and in every map artifact the
color column is the pointwise log1p image of the raw hover column. -/
theorem log1p_nonneg_and_zero :
    (∀ v : ℝ, 0 ≤ v → 0 ≤ log1p v) ∧ log1p 0 = 0 ∧
      ∀ (α : Type) (label : String) (rows : List α) (locOf : α → Nat)
        (countyOf : α → Option String) (colOf : α → ℚ),
        (mkMap label rows locOf countyOf colOf).colorValues =
          (mkMap label rows locOf countyOf colOf).hoverValues.map
            (fun q : ℚ => log1p (q : ℝ)) := by
  refine ⟨fun v hv => Real.log_nonneg (by linarith), by simp [log1p], ?_⟩
  intro α label rows locOf countyOf colOf
  simp only [mkMap, List.map_map]
  rfl

/-- Witness for C7 at the concrete inputs v = 2 and v = 0. -/
theorem log1p_nonneg_and_zero_witness : 0 ≤ log1p 2 ∧ log1p 0 = 0 :=
  ⟨log1p_nonneg_and_zero.1 2 (by norm_num), log1p_nonneg_and_zero.2.1⟩

/-- C4: the load-derive-assemble pipeline is deterministic.  For any
registered scenario identifier and any fixed association of identifiers to
on-disk tables, running the callback twice produces the same output
artifacts; the embedding retains no state between the two runs. -/
theorem pipeline_deterministic (env : String → SourceFiles) (year : String)
    (_hyear : year ∈ data_paths_keys) :
    (runTwice (env year)).1 = (runTwice (env year)).2 :=
  rfl

/-- Witness for C4 at the registered identifier 2017. -/
theorem pipeline_deterministic_witness :
    (runTwice ((fun _ => ⟨some [], some [], some [], some [], some []⟩ :
        String → SourceFiles) "2017")).1 =
      (runTwice ((fun _ => ⟨some [], some [], some [], some [], some []⟩ :
        String → SourceFiles) "2017")).2 :=
  pipeline_deterministic (fun _ => ⟨some [], some [], some [], some [], some []⟩)
    "2017" (by decide)

/-- C5: if any of the five source tables of the requested scenario is missing
or unreadable, the callback surfaces the load error and produces no display
artifact for any section. -/
theorem missing_table_aborts_render (files : SourceFiles)
    (h : files.nitrogen_csv = none ∨ files.area_csv = none ∨
      files.inventory_csv = none ∨ files.crop_csv = none ∨
      files.animal_csv = none) :
    update_dashboard_result files = Except.error LoadError.dataUnavailable := by
  obtain ⟨n, a, i, c, an⟩ := files
  rcases n with _ | n <;> rcases a with _ | a <;> rcases i with _ | i <;>
    rcases c with _ | c <;> rcases an with _ | an <;>
      simp_all [update_dashboard_result, load_data_result, Except.map]

/-- Witness for C5: a scenario whose nitrogen summary file is unreadable. -/
theorem missing_table_aborts_render_witness :
    update_dashboard_result ⟨none, some [], some [], some [], some []⟩ =
      Except.error LoadError.dataUnavailable :=
  missing_table_aborts_render ⟨none, some [], some [], some [], some []⟩
    (Or.inl rfl)

/-- C9: for every scenario selection the callback writes the literal empty
list into the import-export-maps output slot, while the import-export-tables
slot carries the three stage sections, each bundling its three direction
maps with its stage table. -/
theorem trade_maps_slot_always_empty (n : NitrogenTable)
    (a i : List ProductionRow) (c : List CropRow) (an : List AnimalRow) :
    (update_dashboard n a i c an).trade_maps_slot = [] ∧
    ((update_dashboard n a i c an).trade_tables_slot).map
      (fun s => s.mapTabs.length) = [3, 3, 3] ∧
    ((update_dashboard n a i c an).trade_tables_slot).map (fun s => s.heading) =
      ["Crop Stage", "Live Animal Stage", "Animal Product Stage"] :=
  ⟨rfl, rfl, rfl⟩

/-- C10: the rendered artifacts never depend on the contents of
nitrogen_losses_summary.csv - two runs that differ only in that (readable)
table produce identical artifacts - yet the load still fails when the file
is unreadable. -/
theorem nitrogen_summary_contents_unused (n1 n2 : NitrogenTable)
    (a i : List ProductionRow) (c : List CropRow) (an : List AnimalRow) :
    update_dashboard_result ⟨some n1, some a, some i, some c, some an⟩ =
      update_dashboard_result ⟨some n2, some a, some i, some c, some an⟩ ∧
    update_dashboard_result ⟨none, some a, some i, some c, some an⟩ =
      Except.error LoadError.dataUnavailable :=
  ⟨rfl, rfl⟩

/-- C2: in the tables returned by load_data, every crop row's
total_nitrogen_loss equals nitrogen_loss1 + nitrogen_loss2 and every animal
row's total_nitrogen_loss equals the sum of nitrogen_loss3 through
nitrogen_loss7, whatever the scenario's input tables contain. -/
theorem derived_total_columns (n : NitrogenTable) (a i : List ProductionRow)
    (c : List CropRow) (an : List AnimalRow) :
    (∀ r ∈ (load_data n a i c an).crop_df,
      r.total_nitrogen_loss = r.nitrogen_loss1 + r.nitrogen_loss2) ∧
    (∀ r ∈ (load_data n a i c an).animal_df,
      r.total_nitrogen_loss = r.nitrogen_loss3 + r.nitrogen_loss4 +
        r.nitrogen_loss5 + r.nitrogen_loss6 + r.nitrogen_loss7) := by
  constructor <;>
    · intro r hr
      simp only [load_data, cropWithTotals, animalWithTotals,
        List.mem_map] at hr
      obtain ⟨r0, -, rfl⟩ := hr
      rfl

-- Sample rows used to instantiate the claim theorems on concrete data.
def sampleCrop : CropRow :=
  ⟨51001, some "Accomack", "corn", 1000000, 500000, 0, 0, 0, 0⟩

def sampleAnimal : AnimalRow :=
  ⟨51001, some "Accomack", "broilers", 1, 2, 3, 4, 5, 0, 0, 0, 0, 0, 0, 0⟩

/-- Witness for C2 on a concrete loaded table. -/
theorem derived_total_columns_witness :
    ({ sampleCrop with total_nitrogen_loss := 1000000 + 500000 } :
        CropRow).total_nitrogen_loss =
      ({ sampleCrop with total_nitrogen_loss := 1000000 + 500000 } :
        CropRow).nitrogen_loss1 +
        ({ sampleCrop with total_nitrogen_loss := 1000000 + 500000 } :
          CropRow).nitrogen_loss2 :=
  (derived_total_columns [] [] [] [sampleCrop] [sampleAnimal]).1 _
    (by simp [load_data, cropWithTotals, sampleCrop])

-- For two rows sharing a FIPS key, the grouped table contains the row whose
-- loss is the sum of the two losses and whose county is the first non-null
-- county name of the group, in input order.
theorem groupByFips_pair (rows : List TotalRow) (f : Nat) (r1 r2 : TotalRow)
    (h : rows.filter (fun r => r.fips == f) = [r1, r2]) :
    (⟨f, firstNonNull [r1.county, r2.county],
        r1.total_nitrogen_loss + r2.total_nitrogen_loss⟩ : TotalRow) ∈
      groupByFips rows := by
  have hr1 : r1 ∈ rows.filter (fun r => r.fips == f) := by
    rw [h]; simp
  have hf : r1.fips = f := by
    have := (List.mem_filter.mp hr1).2
    simpa using this
  have hkey : f ∈ fipsKeys rows := by
    unfold fipsKeys
    refine (List.perm_insertionSort _ _).mem_iff.mpr ?_
    exact List.mem_dedup.mpr (List.mem_map.mpr ⟨r1, (List.mem_filter.mp hr1).1, hf⟩)
  unfold groupByFips
  refine List.mem_map.mpr ⟨f, hkey, ?_⟩
  rw [h]
  simp

/-- C1: concatenating the crop-stage and animal-stage per-county total rows
(crop rows first) and grouping by FIPS merges two rows that share a FIPS into
one whose total_nitrogen_loss is the sum of the two totals and whose county
name is the first non-null county name in concatenation order. -/
theorem county_total_aggregation (n : NitrogenTable) (a i : List ProductionRow)
    (c : List CropRow) (an : List AnimalRow) (f : Nat) (r1 r2 : TotalRow)
    (h : (concatTotalRows (load_data n a i c an).crop_df
        (load_data n a i c an).animal_df).filter (fun r => r.fips == f) =
      [r1, r2]) :
    (⟨f, firstNonNull [r1.county, r2.county],
        r1.total_nitrogen_loss + r2.total_nitrogen_loss⟩ : TotalRow) ∈
      (load_data n a i c an).total_nitrogen_df :=
  groupByFips_pair _ f r1 r2 h

-- A crop row and an animal row for the same county, county name present on
-- the crop side.
def sampleCropB : CropRow := ⟨1, some "Alpha", "corn", 2, 3, 0, 0, 0, 0⟩

def sampleAnimalB : AnimalRow :=
  ⟨1, some "Beta", "hogs", 1, 2, 1, 2, 1, 0, 0, 0, 0, 0, 0, 0⟩

/-- Witness for C1: a county present in both loss tables. -/
theorem county_total_aggregation_witness :
    (⟨1, firstNonNull [some "Alpha", some "Beta"],
        (2 + 3 : ℚ) + (1 + 2 + 1 + 2 + 1)⟩ : TotalRow) ∈
      (load_data [] [] [] [sampleCropB] [sampleAnimalB]).total_nitrogen_df :=
  county_total_aggregation [] [] [] [sampleCropB] [sampleAnimalB] 1
    ⟨1, some "Alpha", 2 + 3⟩ ⟨1, some "Beta", 1 + 2 + 1 + 2 + 1⟩ rfl

/-- C3: a stage trade table groups the stage's three directional nitrogen
columns by raw commodity label, sums, divides by 10^6, rounds to 2 decimals,
then title-cases and de-underscores the label; for a table whose rows for
commodity dairy_cattle sum to import 2000000, export 1000000 and
within-county 500000 the output contains the row
(Dairy Cattle, 2.00, 1.00, 0.50). -/
theorem trade_summary_dairy (rows : List FlowRow)
    (hmem : "dairy_cattle" ∈ rows.map (fun r => r.1))
    (h1 : ((rows.filter (fun r => r.1 == "dairy_cattle")).map
      (fun r => r.2.1)).sum = 2000000)
    (h2 : ((rows.filter (fun r => r.1 == "dairy_cattle")).map
      (fun r => r.2.2.1)).sum = 1000000)
    (h3 : ((rows.filter (fun r => r.1 == "dairy_cattle")).map
      (fun r => r.2.2.2)).sum = 500000) :
    (⟨"Dairy Cattle", 2, 1, 1 / 2⟩ : TradeRow) ∈ tradeTable rows := by
  have hkey : "dairy_cattle" ∈ commodityKeys (rows.map (fun r => r.1)) := by
    unfold commodityKeys
    exact (List.perm_insertionSort _ _).mem_iff.mpr (List.mem_dedup.mpr hmem)
  unfold tradeTable
  refine List.mem_map.mpr ⟨"dairy_cattle", hkey, ?_⟩
  unfold tradeRowFor
  rw [h1, h2, h3]
  have hlabel : underscoreToSpace (pyTitle "dairy_cattle") = "Dairy Cattle" := by
    decide
  simp only [TradeRow.mk.injEq]
  refine ⟨hlabel, ?_, ?_, ?_⟩ <;> norm_num [round2, roundHalfEven]

/-- Witness for C3 on the one-row stage table of the end-to-end scenario. -/
theorem trade_summary_dairy_witness :
    (⟨"Dairy Cattle", 2, 1, 1 / 2⟩ : TradeRow) ∈
      tradeTable [("dairy_cattle", 2000000, 1000000, 500000)] :=
  trade_summary_dairy [("dairy_cattle", 2000000, 1000000, 500000)]
    (by simp) (by simp) (by simp) (by simp)

/-- C6 counterexample: the script renames a column by replacing every
occurrence of selfloop, not only the leading one.  For the column name
selfloopselfloop, replacing the leading occurrence alone would give
within_countyselfloop, but the rename produces within_countywithin_county. -/
theorem selfloop_rename_counterexample :
    pyStartswith "selfloopselfloop" "selfloop" = true ∧
    (renameWithinCounty ⟨["selfloopselfloop"], [[1]]⟩).headers =
      ["within_countywithin_county"] ∧
    (renameWithinCounty ⟨["selfloopselfloop"], [[1]]⟩).headers ≠
      ["within_countyselfloop"] := by
  refine ⟨by decide, by decide, by decide⟩

/-- C6 amended: during loading, every column whose name starts with selfloop
is renamed by replacing every occurrence of selfloop in the name with
within_county (for the fixed schemas, where selfloop occurs only as the
leading segment, this is exactly the stated replacement of the leading
occurrence), every other column keeps its name, and no data cell changes. -/
theorem selfloop_rename_amended (t : RawTable) :
    (renameWithinCounty t).cells = t.cells ∧
    (renameWithinCounty t).headers = t.headers.map renameColumn ∧
    (∀ col : String, pyStartswith col "selfloop" = false →
      renameColumn col = col) ∧
    (∀ col : String, pyStartswith col "selfloop" = true →
      renameColumn col = pyReplace col "selfloop" "within_county") := by
  refine ⟨rfl, rfl, ?_, ?_⟩ <;> intro col h <;> simp [renameColumn, h]

/-- Witness for C6 on a two-column table with one legacy column. -/
theorem selfloop_rename_amended_witness :
    (renameWithinCounty
        ⟨["selfloop_crop_processing_nitrogen", "county"], [[1, 2]]⟩).cells =
      [[1, 2]] ∧
    renameColumn "county" = "county" ∧
    renameColumn "selfloop_crop_processing_nitrogen" =
      pyReplace "selfloop_crop_processing_nitrogen" "selfloop" "within_county" :=
  ⟨(selfloop_rename_amended
      ⟨["selfloop_crop_processing_nitrogen", "county"], [[1, 2]]⟩).1,
   (selfloop_rename_amended
      ⟨["selfloop_crop_processing_nitrogen", "county"], [[1, 2]]⟩).2.2.1
     "county" (by decide),
   (selfloop_rename_amended
      ⟨["selfloop_crop_processing_nitrogen", "county"], [[1, 2]]⟩).2.2.2
     "selfloop_crop_processing_nitrogen" (by decide)⟩

-- Half-integer bound for ties-to-even rounding.
theorem abs_roundHalfEven_sub (x : ℚ) :
    |(roundHalfEven x : ℚ) - x| ≤ 1 / 2 := by
  have h1 : ((⌊x⌋ : ℤ) : ℚ) ≤ x := Int.floor_le x
  have h2 : x < ⌊x⌋ + 1 := Int.lt_floor_add_one x
  unfold roundHalfEven
  split_ifs with hlt hgt heven <;> rw [abs_le] <;> push_cast <;>
    constructor <;> linarith

-- Two-decimal rounding moves a rational by at most 1/200.
theorem abs_round2_sub (q : ℚ) : |round2 q - q| ≤ 1 / 200 := by
  have h := abs_roundHalfEven_sub (100 * q)
  have heq : round2 q - q = ((roundHalfEven (100 * q) : ℚ) - 100 * q) / 100 := by
    unfold round2; ring
  rw [heq, abs_div]
  rw [show |(100 : ℚ)| = 100 by norm_num]
  rw [div_le_iff₀ (by norm_num : (0 : ℚ) < 100)]
  linarith

/-- C8: every displayed mass aggregate is the raw sum over 10^6 rounded to 2
decimals, so scaling a displayed value back by 10^6 reproduces the raw sum
within 0.005 million (5000 mass units); and the grand-total row of the
nitrogen-loss table is the single rounding of the unrounded raw column sums,
not a sum of the rounded per-category rows. -/
theorem display_rounding_contract (raw : ℚ) (crop_df : List CropRow)
    (animal_df : List AnimalRow) :
    |displayMillions raw * 10 ^ 6 - raw| ≤ 5000 ∧
    (nitrogenLossTableRows crop_df animal_df).map (fun r => r.total_ktons) =
      [displayMillions (sumBy crop_df (fun r => r.nitrogen_loss1)),
       displayMillions (sumBy crop_df (fun r => r.nitrogen_loss2)),
       displayMillions (sumBy animal_df (fun r => r.nitrogen_loss3)),
       displayMillions (sumBy animal_df (fun r => r.nitrogen_loss4)),
       displayMillions (sumBy animal_df (fun r => r.nitrogen_loss5)),
       displayMillions (sumBy animal_df (fun r => r.nitrogen_loss6)),
       displayMillions (sumBy animal_df (fun r => r.nitrogen_loss7)),
       displayMillions (sumBy crop_df (fun r => r.nitrogen_loss1) +
         sumBy crop_df (fun r => r.nitrogen_loss2) +
         sumBy animal_df (fun r => r.nitrogen_loss3) +
         sumBy animal_df (fun r => r.nitrogen_loss4) +
         sumBy animal_df (fun r => r.nitrogen_loss5) +
         sumBy animal_df (fun r => r.nitrogen_loss6) +
         sumBy animal_df (fun r => r.nitrogen_loss7))] := by
  constructor
  · have h := abs_round2_sub (raw / 10 ^ 6)
    have heq : displayMillions raw * 10 ^ 6 - raw =
        (round2 (raw / 10 ^ 6) - raw / 10 ^ 6) * 10 ^ 6 := by
      unfold displayMillions; ring
    rw [heq, abs_mul]
    rw [show |((10 : ℚ) ^ 6)| = 10 ^ 6 by norm_num]
    nlinarith [abs_nonneg (round2 (raw / 10 ^ 6) - raw / 10 ^ 6)]
  · simp only [nitrogenLossTableRows, List.map_cons, List.map_nil,
      List.cons.injEq, and_true]
    refine ⟨trivial, trivial, trivial, trivial, trivial, trivial, trivial, ?_⟩
    unfold displayMillions
    congr 1
    ring
